import Mathlib

/-!
Shallow embedding of the window-generation, answer-remapping and
sample-assembly core of src/preprocessing/dataset.py (class Dataset).
Python integers are modelled as Int, Python floor division as Int.fdiv,
Python list slicing by an explicit clamping slice, and the runtime
failures of numpy and of list operations as explicit error values.
-/

namespace ContractExtraction

/-- Runtime failures the Python core can raise on the modelled paths:
division by zero in the window count, numpy rejecting a negative repeat
count, numpy rejecting a concatenation of arrays of different rank, and
popping from an empty content queue. -/
inductive PyErr where
  | zeroDivisionError
  | valueErrorNegativeDimensions
  | valueErrorDimensionMismatch
  | indexError
deriving DecidableEq

/-- The two fields of a tokenized block that the assembly path of the
dataset actually threads through combine_qc: the context dict built in
Dataset.__getitem__ holds exactly the keys input_ids and attention_mask,
and combine_qc accumulates over the context's keys. -/
structure QCBlock where
  input_ids : List Int
  attention_mask : List Int
deriving DecidableEq

/-- One row of the span table produced by Dataset.generate_subsample_span
(the four integer columns of the resulting data frame). -/
structure SpanRow where
  subcontext_start : Int
  subcontext_end : Int
  answer_start : Int
  answer_end : Int
deriving DecidableEq

/-- One row of the full flat table, tagging a span row with its
question and context identifiers. -/
structure TableRow where
  question_id : String
  context_id : String
  subcontext_start : Int
  subcontext_end : Int
  answer_start : Int
  answer_end : Int
deriving DecidableEq

/-- The record returned by Dataset.__getitem__ (tensor conversion
dropped): padded input_ids and attention_mask plus the answer labels. -/
structure AssembledSample where
  input_ids : List Int
  attention_mask : List Int
  start_positions : Int
  end_positions : Int
deriving DecidableEq

/-- Modelled from the spec: calculate_overlap is defined in
src/preprocessing/utils.py, which is not among the sources.  Section 4.2
of the spec defines the overlap as the size of the intersection of the
window range and the answer range on inclusive integer ranges (0 if
disjoint); the call site in Dataset.generate_subsample_span passes the
answer end exclusively (ans_end + 1), so the fourth argument is taken as
an exclusive bound. -/
def calculate_overlap (s1 e1 s2 e2 : Int) : Int :=
  max 0 (min (e1 + 1) e2 - max s1 s2)

/-- Overlap of two inclusive integer ranges exactly as worded in section
4.2 of the spec; used to state the claims about the inclusion rule. -/
def inclusiveOverlap (s1 e1 s2 e2 : Int) : Int :=
  max 0 (min e1 e2 - max s1 s2 + 1)

/-- The per-window answer shift, embedding the list comprehension at
lines 149-160 of dataset.py: include the answer and translate it into
assembled-sequence coordinates when the overlap reaches the threshold
min(answer length, min_answer_length), else emit the sentinel (0, 0). -/
def shift_answer (len_question sbc min_answer_length : Int)
    (window ans : Int × Int) : Int × Int :=
  if min (ans.2 - ans.1 + 1) min_answer_length ≤
      calculate_overlap window.1 window.2 ans.1 (ans.2 + 1) then
    (ans.1 - window.1 + len_question + sbc, ans.2 - window.1 + len_question + sbc)
  else
    (0, 0)

/-- Window-span computation of Dataset.generate_subsample_span, lines
136-146: subcontext_max_length and the effective stride are derived from
the budget, the window count comes from Python floor division (raising
ZeroDivisionError when the effective stride is zero), and the numpy
construction of the span matrix raises ValueError when the computed
count is negative; otherwise row i is
(i * stride_, i * stride_ + subcontext_max_length - 1). -/
def generate_window_spans (len_question len_context max_length stride n_seps : Int) :
    Except PyErr (List (Int × Int)) :=
  let subcontext_max_length := max_length - len_question - n_seps
  let stride_ := subcontext_max_length - stride
  if stride_ = 0 then
    .error .zeroDivisionError
  else
    let n_sub := (len_context - stride).fdiv stride_ + 1
    if n_sub < 0 then
      .error .valueErrorNegativeDimensions
    else
      .ok ((List.range n_sub.toNat).map
        (fun (i : Nat) =>
          ((i : Int) * stride_, (i : Int) * stride_ + subcontext_max_length - 1)))

/-- Full Dataset.generate_subsample_span: windows plus the shifted
answers, one row per window.  When the window count is zero the numpy
concatenation of the empty span matrix with the empty answer list fails
on mismatched ranks, so the function raises rather than returning an
empty frame. -/
def generate_subsample_span (len_question len_context max_length stride
    min_answer_length sbc n_seps : Int) (ans : Int × Int) :
    Except PyErr (List SpanRow) :=
  match generate_window_spans len_question len_context max_length stride n_seps with
  | .error e => .error e
  | .ok spans =>
    if spans.isEmpty then
      .error .valueErrorDimensionMismatch
    else
      .ok (spans.map (fun w =>
        let sh := shift_answer len_question sbc min_answer_length w ans
        ⟨w.1, w.2, sh.1, sh.2⟩))

/-- Count of literal separator entries: sum(np.array(seperators) >= 0)
at line 134 of dataset.py. -/
def n_seps (seps : List Int) : Nat :=
  (seps.filter (fun s => 0 ≤ s)).length

/-- Index of the last content-slot marker -1 in the separator template,
embedding the context_start computation at lines 69-71 of dataset.py. -/
def lastSlotIndex (seps : List Int) : Nat :=
  seps.length - ((seps.reverse).indexOf (-1) + 1)

/-- Count of literal separator entries before the context slot, lines
72-74 of dataset.py. -/
def n_seps_before_context (seps : List Int) : Nat :=
  ((seps.take (lastSlotIndex seps)).filter (fun s => 0 ≤ s)).length

/-- Worker loop of Dataset.combine_qc: traverse the separator template,
appending the literal token (with attention mask 1) for a non-negative
entry and consuming the next pending content block for a negative entry;
popping from an exhausted queue is a Python IndexError. -/
def combine_qc_go : List Int → List QCBlock → QCBlock → Except PyErr QCBlock
  | [], _, acc => .ok acc
  | sep :: rest, content, acc =>
    if 0 ≤ sep then
      combine_qc_go rest content
        ⟨acc.input_ids ++ [sep], acc.attention_mask ++ [1]⟩
    else
      match content with
      | [] => .error .indexError
      | b :: tl =>
        combine_qc_go rest tl
          ⟨acc.input_ids ++ b.input_ids, acc.attention_mask ++ b.attention_mask⟩

/-- Dataset.combine_qc, lines 199-227: interleave the question block and
the context-window block with the literal separators, the content queue
holding the question first and the context second. -/
def combine_qc (seps : List Int) (question context : QCBlock) : Except PyErr QCBlock :=
  combine_qc_go seps [question, context] ⟨[], []⟩

/-- Clamped index of a Python slice bound: negative bounds count from
the end, and bounds are clamped into [0, n]. -/
def pyIndex (n : Nat) (i : Int) : Nat :=
  if i < 0 then ((n : Int) + i).toNat else min i.toNat n

/-- Python list slicing l[s:e]. -/
def pySlice {α : Type} (l : List α) (s e : Int) : List α :=
  (l.take (pyIndex l.length e)).drop (pyIndex l.length s)

/-- The context-window slice of Dataset.__getitem__, lines 93-96:
both fields sliced to [subcontext_start, subcontext_end + 1). -/
def slice_block (b : QCBlock) (s e : Int) : QCBlock :=
  ⟨pySlice b.input_ids s (e + 1), pySlice b.attention_mask s (e + 1)⟩

/-- Right padding of Dataset.__getitem__, lines 98-103: input_ids padded
with the padding id and attention_mask with 0 up to max_length; a Python
list multiplied by a negative count is empty, so an over-long sample is
left untouched. -/
def pad_to (max_length padding_id : Int) (b : QCBlock) : QCBlock :=
  ⟨b.input_ids ++
      List.replicate (max_length - (b.input_ids.length : Int)).toNat padding_id,
   b.attention_mask ++
      List.replicate (max_length - (b.attention_mask.length : Int)).toNat 0⟩

/-- The two instance kinds accepted by Dataset._get_instance. -/
inductive InstanceType where
  | question
  | context
deriving DecidableEq

/-- Dataset._get_instance, lines 229-249: serve the block from the
in-memory maps when they were built, otherwise read it from the store
(the pickle directory) on demand. -/
def get_instance (content : Option (InstanceType → String → QCBlock))
    (disk : InstanceType → String → QCBlock)
    (identifier : String) (ty : InstanceType) : QCBlock :=
  match content with
  | some maps => maps ty identifier
  | none => disk ty identifier

/-- Dataset.__getitem__, lines 79-108: fetch the question and context
blocks, slice the context to the row's window, assemble with the
separator template, pad to max_length and attach the answer labels. -/
def dataset_get (content : Option (InstanceType → String → QCBlock))
    (disk : InstanceType → String → QCBlock)
    (seps : List Int) (padding_id max_length : Int) (row : TableRow) :
    Except PyErr AssembledSample :=
  let question := get_instance content disk row.question_id .question
  let context := get_instance content disk row.context_id .context
  let subcontext := slice_block context row.subcontext_start row.subcontext_end
  match combine_qc seps question subcontext with
  | .error e => .error e
  | .ok r =>
    let p := pad_to max_length padding_id r
    .ok ⟨p.input_ids, p.attention_mask, row.answer_start, row.answer_end⟩

/-- The partition predicate the dataset passes to the external balancer
at line 77 of dataset.py: subsample_spans.answer_end > 0. -/
def balancer_predicate (r : SpanRow) : Bool :=
  decide (0 < r.answer_end)

/-- The partition predicate as worded by the spec: a row is answerable
exactly when its remapped answer is not the sentinel pair (0, 0). -/
def is_answerable_spec (r : SpanRow) : Bool :=
  decide ((r.answer_start, r.answer_end) ≠ ((0 : Int), (0 : Int)))

/-- The table handed to the dataset, line 77 of dataset.py: the external
balancer, applied to the flat table with the code's partition predicate,
replaces the flat table. -/
def build_balanced_table
    (resample : List SpanRow → (SpanRow → Bool) → List SpanRow)
    (rows : List SpanRow) : List SpanRow :=
  resample rows balancer_predicate

/-- Tagged separator entries as worded in section 3 of the spec: either
a literal token or a content slot. -/
inductive SepEntry where
  | literal (token_id : Int)
  | contentSlot
deriving DecidableEq

/-- The spec's reading of a raw separator entry: non-negative values are
literal tokens, the sentinel marks a content slot. -/
def tag_entry (s : Int) : SepEntry :=
  if 0 ≤ s then .literal s else .contentSlot

/-- Assembler over tagged separator entries, following the wording of
section 4.3 of the spec: a literal appends one token with attention mask
1, a content slot consumes the next pending block in full. -/
def assemble_go : List SepEntry → List QCBlock → QCBlock → Except PyErr QCBlock
  | [], _, acc => .ok acc
  | .literal t :: rest, content, acc =>
    assemble_go rest content ⟨acc.input_ids ++ [t], acc.attention_mask ++ [1]⟩
  | .contentSlot :: _, [], _ => .error .indexError
  | .contentSlot :: rest, b :: tl, acc =>
    assemble_go rest tl ⟨acc.input_ids ++ b.input_ids, acc.attention_mask ++ b.attention_mask⟩

/-- Named length projections used to state the assembled-length facts
without anonymous functions. -/
def block_id_len (r : QCBlock) : Nat := r.input_ids.length

/-- Length of the attention mask of a block. -/
def block_mask_len (r : QCBlock) : Nat := r.attention_mask.length

/-- Length of the padded input_ids of a block. -/
def padded_id_len (max_length padding_id : Int) (r : QCBlock) : Nat :=
  (pad_to max_length padding_id r).input_ids.length

/-- Length of the padded attention mask of a block. -/
def padded_mask_len (max_length padding_id : Int) (r : QCBlock) : Nat :=
  (pad_to max_length padding_id r).attention_mask.length

lemma calculate_overlap_eq_inclusive (s1 e1 s2 e2 : Int) :
    calculate_overlap s1 e1 s2 (e2 + 1) = inclusiveOverlap s1 e1 s2 e2 := by
  unfold calculate_overlap inclusiveOverlap
  omega

lemma shift_answer_pos (lq sbc mal cs ce a ae : Int)
    (h : min (ae - a + 1) mal ≤ inclusiveOverlap cs ce a ae) :
    shift_answer lq sbc mal (cs, ce) (a, ae) =
      (a - cs + lq + sbc, ae - cs + lq + sbc) := by
  have hc : min (ae - a + 1) mal ≤ calculate_overlap cs ce a (ae + 1) := by
    rw [calculate_overlap_eq_inclusive]; exact h
  simp [shift_answer, hc]

lemma shift_answer_neg (lq sbc mal cs ce a ae : Int)
    (h : inclusiveOverlap cs ce a ae < min (ae - a + 1) mal) :
    shift_answer lq sbc mal (cs, ce) (a, ae) = (0, 0) := by
  have hc : ¬ min (ae - a + 1) mal ≤ calculate_overlap cs ce a (ae + 1) := by
    rw [calculate_overlap_eq_inclusive]; omega
  simp [shift_answer, hc]

lemma pyIndex_le (n : Nat) (i : Int) : pyIndex n i ≤ n := by
  unfold pyIndex
  split <;> omega

lemma pyIndex_nonneg_eq (n : Nat) (i : Int) (h : 0 ≤ i) :
    (pyIndex n i : Int) = min i n := by
  unfold pyIndex
  rw [if_neg (by omega)]
  omega

lemma pySlice_length {α : Type} (l : List α) (s e : Int) :
    (pySlice l s e).length = pyIndex l.length e - pyIndex l.length s := by
  unfold pySlice
  rw [List.length_drop, List.length_take]
  have := pyIndex_le l.length e
  omega

lemma n_seps_eq_countP (seps : List Int) :
    n_seps seps = seps.countP (fun s => 0 ≤ s) := by
  simp [n_seps, List.countP_eq_length_filter]

lemma n_seps_before_context_le (seps : List Int) :
    n_seps_before_context seps ≤ n_seps seps := by
  unfold n_seps_before_context n_seps
  rw [← List.countP_eq_length_filter, ← List.countP_eq_length_filter]
  exact (List.take_sublist _ _).countP_le _

lemma mem_generate_subsample_span (lq lc ml st mal sbc ns a ae : Int)
    (rows : List SpanRow) (r : SpanRow)
    (hgen : generate_subsample_span lq lc ml st mal sbc ns (a, ae) = .ok rows)
    (hr : r ∈ rows) :
    ∃ w : Int × Int,
      r = ⟨w.1, w.2, (shift_answer lq sbc mal w (a, ae)).1,
           (shift_answer lq sbc mal w (a, ae)).2⟩ := by
  unfold generate_subsample_span at hgen
  split at hgen
  · exact absurd hgen (by simp)
  · split at hgen
    · exact absurd hgen (by simp)
    · injection hgen with hrows
      rw [← hrows] at hr
      obtain ⟨w, _, hfw⟩ := List.mem_map.mp hr
      exact ⟨w, hfw.symm⟩

lemma window_mem_shape (lq lc ml st ns : Int) (spans : List (Int × Int)) (cs ce : Int)
    (hst : 0 ≤ st) (hlt : st < ml - lq - ns)
    (hgen : generate_window_spans lq lc ml st ns = .ok spans)
    (hw : (cs, ce) ∈ spans) :
    0 ≤ cs ∧ ce + 1 = cs + (ml - lq - ns) := by
  have hs0 : ml - lq - ns - st ≠ 0 := by omega
  unfold generate_window_spans at hgen
  by_cases hn : (lc - st).fdiv (ml - lq - ns - st) + 1 < 0
  · rw [if_neg hs0, if_pos hn] at hgen
    exact absurd hgen (by simp)
  · rw [if_neg hs0, if_neg hn] at hgen
    injection hgen with hsp
    rw [← hsp] at hw
    obtain ⟨i, _, hpair⟩ := List.mem_map.mp hw
    have h1 : (i : Int) * (ml - lq - ns - st) = cs := congrArg Prod.fst hpair
    have h2 : (i : Int) * (ml - lq - ns - st) + (ml - lq - ns) - 1 = ce :=
      congrArg Prod.snd hpair
    have hnn : 0 ≤ (i : Int) * (ml - lq - ns - st) :=
      mul_nonneg (by omega) (by omega)
    omega

lemma combine_qc_go_ok (seps : List Int) :
    ∀ (content : List QCBlock) (acc : QCBlock),
      seps.countP (fun s => s < 0) = content.length →
      ∃ r, combine_qc_go seps content acc = .ok r ∧
        r.input_ids.length = acc.input_ids.length + seps.countP (fun s => 0 ≤ s)
          + (content.map (fun b => b.input_ids.length)).sum ∧
        r.attention_mask.length = acc.attention_mask.length + seps.countP (fun s => 0 ≤ s)
          + (content.map (fun b => b.attention_mask.length)).sum := by
  induction seps with
  | nil =>
    intro content acc h
    have hc : content = [] := List.eq_nil_of_length_eq_zero (by simpa using h.symm)
    subst hc
    exact ⟨acc, rfl, by simp, by simp⟩
  | cons s rest ih =>
    intro content acc h
    by_cases hs : (0 : Int) ≤ s
    · have hrest : rest.countP (fun s => s < 0) = content.length := by
        rw [List.countP_cons] at h
        simpa [show ¬ s < 0 by omega] using h
      obtain ⟨r, hr, h1, h2⟩ :=
        ih content ⟨acc.input_ids ++ [s], acc.attention_mask ++ [1]⟩ hrest
      refine ⟨r, ?_, ?_, ?_⟩
      · simpa [combine_qc_go, hs] using hr
      · rw [List.countP_cons]
        simp only [QCBlock.mk.injEq, List.length_append, List.length_cons,
          List.length_nil] at h1 ⊢
        simp [hs] at h1 ⊢
        omega
      · rw [List.countP_cons]
        simp only [QCBlock.mk.injEq, List.length_append, List.length_cons,
          List.length_nil] at h2 ⊢
        simp [hs] at h2 ⊢
        omega
    · cases content with
      | nil =>
        exfalso
        rw [List.countP_cons] at h
        simp [show s < 0 by omega] at h
      | cons b tl =>
        have hrest : rest.countP (fun s => s < 0) = tl.length := by
          rw [List.countP_cons] at h
          simp [show s < 0 by omega] at h
          omega
        obtain ⟨r, hr, h1, h2⟩ :=
          ih tl ⟨acc.input_ids ++ b.input_ids, acc.attention_mask ++ b.attention_mask⟩ hrest
        refine ⟨r, ?_, ?_, ?_⟩
        · simpa [combine_qc_go, hs] using hr
        · rw [List.countP_cons]
          simp [show ¬ (0 ≤ s) from hs] at h1 ⊢
          omega
        · rw [List.countP_cons]
          simp [show ¬ (0 ≤ s) from hs] at h2 ⊢
          omega

lemma combine_qc_ok_two (seps : List Int) (q c : QCBlock)
    (h2 : seps.countP (fun s => s < 0) = 2) :
    ∃ r, combine_qc seps q c = .ok r ∧
      r.input_ids.length = q.input_ids.length + c.input_ids.length + n_seps seps ∧
      r.attention_mask.length =
        q.attention_mask.length + c.attention_mask.length + n_seps seps := by
  obtain ⟨r, hr, ha, hb⟩ := combine_qc_go_ok seps [q, c] ⟨[], []⟩ (by simpa using h2)
  refine ⟨r, hr, ?_, ?_⟩
  · rw [ha, n_seps_eq_countP]; simp; omega
  · rw [hb, n_seps_eq_countP]; simp; omega

lemma combine_go_eq_assemble (seps : List Int) :
    ∀ (content : List QCBlock) (acc : QCBlock),
      combine_qc_go seps content acc = assemble_go (seps.map tag_entry) content acc := by
  induction seps with
  | nil => intro content acc; rfl
  | cons s rest ih =>
    intro content acc
    by_cases hs : (0 : Int) ≤ s
    · simp [combine_qc_go, assemble_go, tag_entry, hs, ih]
    · cases content with
      | nil => simp [combine_qc_go, assemble_go, tag_entry, hs]
      | cons b tl => simp [combine_qc_go, assemble_go, tag_entry, hs, ih]

/-- Store used to instantiate the memory/lazy agreement at a concrete
input. -/
def const_store : InstanceType → String → QCBlock :=
  fun _ _ => ⟨[7, 8, 9, 10, 11, 12], [1, 1, 1, 1, 1, 1]⟩

/-- C1 counterexample: at the valid input len_question = 0,
len_context = 1, max_length = 11, stride = 9 (0 ≤ 9 < 10 =
subcontext_max_length), n_seps = 1, the window generator raises a numpy
ValueError (the computed window count is -7), so it does not produce the
claimed window list at all. -/
theorem window_generation_fails_on_large_stride :
    (0 : Int) ≤ 0 ∧ (1 : Int) ≤ 1 ∧ (0 : Int) < 11 ∧ (0 : Int) ≤ 9 ∧
    (9 : Int) < 11 - 0 - 1 ∧ (0 : Int) ≤ 1 ∧
    generate_window_spans 0 1 11 9 1 = .error .valueErrorNegativeDimensions :=
  ⟨by decide, by decide, by decide, by decide, by decide, by decide, rfl⟩

/-- C1 (amended): for a valid input with additionally stride ≤
len_context, the window list is exactly the arithmetic progression
window_i = (i * stride_, i * stride_ + subcontext_max_length - 1) for
i in 0..n_sub-1 with n_sub = floor((len_context - stride) / stride_) + 1
(which is then at least 1); every window in the progression has length
exactly subcontext_max_length and consecutive windows overlap by exactly
stride tokens. -/
theorem window_list_formula (lq lc ml st ns : Int)
    (hst : 0 ≤ st) (hlt : st < ml - lq - ns) (hsl : st ≤ lc) :
    generate_window_spans lq lc ml st ns =
      .ok ((List.range ((lc - st).fdiv (ml - lq - ns - st) + 1).toNat).map
        (fun (i : Nat) =>
          ((i : Int) * (ml - lq - ns - st),
           (i : Int) * (ml - lq - ns - st) + (ml - lq - ns) - 1)))
    ∧ 1 ≤ (lc - st).fdiv (ml - lq - ns - st) + 1
    ∧ (∀ i : Nat,
        ((i : Int) * (ml - lq - ns - st) + (ml - lq - ns) - 1) -
          ((i : Int) * (ml - lq - ns - st)) + 1 = ml - lq - ns)
    ∧ (∀ i : Nat,
        inclusiveOverlap ((i : Int) * (ml - lq - ns - st))
          ((i : Int) * (ml - lq - ns - st) + (ml - lq - ns) - 1)
          (((i : Int) + 1) * (ml - lq - ns - st))
          (((i : Int) + 1) * (ml - lq - ns - st) + (ml - lq - ns) - 1) = st) := by
  have hs0 : ml - lq - ns - st ≠ 0 := by omega
  have hge : 0 ≤ (lc - st).fdiv (ml - lq - ns - st) :=
    Int.fdiv_nonneg (by omega) (by omega)
  have hnlt : ¬ ((lc - st).fdiv (ml - lq - ns - st) + 1 < 0) := by omega
  refine ⟨?_, by omega, fun i => by ring, fun i => ?_⟩
  · unfold generate_window_spans
    rw [if_neg hs0, if_neg hnlt]
  · have hexp : ((i : Int) + 1) * (ml - lq - ns - st) =
        (i : Int) * (ml - lq - ns - st) + (ml - lq - ns - st) := by ring
    rw [inclusiveOverlap, hexp]
    generalize (i : Int) * (ml - lq - ns - st) = x
    omega

/-- Witness for the amended C1 at the concrete input of the spec's
scenario: len_question = 3, len_context = 6, max_length = 10,
stride = 1, n_seps = 1. -/
theorem window_list_formula_witness :
    generate_window_spans 3 6 10 1 1 =
      .ok ((List.range (((6 : Int) - 1).fdiv (10 - 3 - 1 - 1) + 1).toNat).map
        (fun (i : Nat) =>
          ((i : Int) * (10 - 3 - 1 - 1),
           (i : Int) * (10 - 3 - 1 - 1) + (10 - 3 - 1) - 1)))
    ∧ 1 ≤ ((6 : Int) - 1).fdiv (10 - 3 - 1 - 1) + 1 :=
  ⟨(window_list_formula 3 6 10 1 1 (by decide) (by decide) (by decide)).1,
   (window_list_formula 3 6 10 1 1 (by decide) (by decide) (by decide)).2.1⟩

/-- C2: the per-window answer remapper returns the translated pair
exactly when the inclusive-range overlap of the window and the answer
reaches the threshold min(answer length, min_answer_length), and the
sentinel (0, 0) otherwise. -/
theorem answer_remap_inclusion_rule (lq sbc mal cs ce a ae : Int) :
    (min (ae - a + 1) mal ≤ inclusiveOverlap cs ce a ae →
      shift_answer lq sbc mal (cs, ce) (a, ae) =
        (a - cs + lq + sbc, ae - cs + lq + sbc))
    ∧ (inclusiveOverlap cs ce a ae < min (ae - a + 1) mal →
      shift_answer lq sbc mal (cs, ce) (a, ae) = (0, 0)) :=
  ⟨shift_answer_pos lq sbc mal cs ce a ae, shift_answer_neg lq sbc mal cs ce a ae⟩

/-- Witness for C2 at the spec's concrete scenario 6: window (0, 5),
answer (2, 3), len_question 3, seps_before_context 1,
min_answer_length 1; the answer is included and maps to (6, 7). -/
theorem answer_remap_inclusion_rule_witness :
    shift_answer 3 1 1 ((0 : Int), (5 : Int)) ((2 : Int), (3 : Int)) = (6, 7) :=
  (answer_remap_inclusion_rule 3 1 1 0 5 2 3).1 (by decide)

/-- C3 counterexample: with len_question = 10, len_context = 1,
max_length = 5, stride = 7, n_seps = 1 both subcontext_max_length = -6
and stride_ = -13 are non-positive, yet the generator raises nothing and
returns the degenerate window (0, -7). -/
theorem no_configuration_validation :
    ((5 : Int) - 10 - 1 ≤ 0) ∧ ((5 : Int) - 10 - 1 - 7 ≤ 0) ∧
    generate_window_spans 10 1 5 7 1 = .ok [((0 : Int), (-7 : Int))] :=
  ⟨by decide, by decide, rfl⟩

/-- C3 (amended): the window generator performs no configuration
validation and never raises a ConfigurationError; it fails with a
ZeroDivisionError exactly when stride_ = 0 and with a numpy ValueError
exactly when stride_ is non-zero and the computed window count is
negative; in every other case, including subcontext_max_length ≤ 0 or
stride_ < 0, it silently returns windows. -/
theorem window_generation_error_characterization (lq lc ml st ns : Int) :
    (generate_window_spans lq lc ml st ns = .error .zeroDivisionError ↔
      ml - lq - ns - st = 0)
    ∧ (generate_window_spans lq lc ml st ns = .error .valueErrorNegativeDimensions ↔
      (ml - lq - ns - st ≠ 0 ∧ (lc - st).fdiv (ml - lq - ns - st) + 1 < 0)) := by
  unfold generate_window_spans
  by_cases h1 : ml - lq - ns - st = 0
  · simp [h1]
  · by_cases h2 : (lc - st).fdiv (ml - lq - ns - st) + 1 < 0
    · simp [h1, h2]
    · simp [h1, h2]

/-- C4 counterexample: at the valid input len_question = 3,
len_context = 1, max_length = 10, stride = 2, n_seps = 1 the computed
window count is 0 and is not clamped: the span computation yields zero
windows, and the enclosing row builder then fails on the numpy
concatenation instead of returning at least one window. -/
theorem zero_windows :
    generate_window_spans 3 1 10 2 1 = .ok ([] : List (Int × Int))
    ∧ generate_subsample_span 3 1 10 2 1 1 1 (0, 0) =
        .error .valueErrorDimensionMismatch :=
  ⟨rfl, rfl⟩

/-- C4 (amended): the window count n_sub =
floor((len_context - stride) / stride_) + 1 is not clamped; whenever
stride ≤ len_context (in a valid configuration) it is at least 1 and the
generator returns exactly n_sub windows. -/
theorem window_count_formula (lq lc ml st ns : Int)
    (hst : 0 ≤ st) (hlt : st < ml - lq - ns) (hsl : st ≤ lc) :
    (generate_window_spans lq lc ml st ns).toOption.map List.length =
      some ((lc - st).fdiv (ml - lq - ns - st) + 1).toNat
    ∧ 1 ≤ (lc - st).fdiv (ml - lq - ns - st) + 1 := by
  have hs0 : ml - lq - ns - st ≠ 0 := by omega
  have hge : 0 ≤ (lc - st).fdiv (ml - lq - ns - st) :=
    Int.fdiv_nonneg (by omega) (by omega)
  have hnlt : ¬ ((lc - st).fdiv (ml - lq - ns - st) + 1 < 0) := by omega
  constructor
  · unfold generate_window_spans
    rw [if_neg hs0, if_neg hnlt]
    simp [Except.toOption]
  · omega

/-- Witness for the amended C4: at len_question = 3, len_context = 6,
max_length = 10, stride = 1, n_seps = 1 the generator returns exactly
two windows. -/
theorem window_count_formula_witness :
    (generate_window_spans 3 6 10 1 1).toOption.map List.length =
      some (((6 : Int) - 1).fdiv (10 - 3 - 1 - 1) + 1).toNat
    ∧ 1 ≤ ((6 : Int) - 1).fdiv (10 - 3 - 1 - 1) + 1 :=
  window_count_formula 3 6 10 1 1 (by decide) (by decide) (by decide)

/-- C5 counterexample: the window (10, 15) is really produced
(len_question = 3, len_context = 12, max_length = 10, stride = 1,
n_seps = 1), the in-range answer (2, 11) passes the inclusion rule
(overlap 2 ≥ min(10, 2) = 2), yet the remapped span is (-4, 5):
mapped_start is negative. -/
theorem negative_mapped_start :
    generate_window_spans 3 12 10 1 1 = .ok [(0, 5), (5, 10), (10, 15)]
    ∧ min ((11 : Int) - 2 + 1) 2 ≤ inclusiveOverlap 10 15 2 11
    ∧ shift_answer 3 1 2 ((10 : Int), (15 : Int)) ((2 : Int), (11 : Int)) = (-4, 5)
    ∧ (-4 : Int) < 0 :=
  ⟨rfl, by decide, by decide, by decide⟩

/-- C5 (amended): for every included well-formed answer the remapper
emits the translated pair and mapped_end ≥ mapped_start holds; if in
addition the window covers the answer's start (context_start ≤
ans_start) the remapped start is non-negative; and if the window covers
the whole answer and lies inside the context, the remapped span lies
within the assembled sequence's pre-padding length len_question + slice
length + n_seps. -/
theorem remapped_span_bounds (lq sbc mal ns cs ce a ae : Int) (ctx : List Int)
    (hlq : 0 ≤ lq) (hsbc : 0 ≤ sbc) (hsn : sbc ≤ ns) (haa : a ≤ ae)
    (hincl : min (ae - a + 1) mal ≤ inclusiveOverlap cs ce a ae) :
    shift_answer lq sbc mal (cs, ce) (a, ae) =
      (a - cs + lq + sbc, ae - cs + lq + sbc)
    ∧ a - cs + lq + sbc ≤ ae - cs + lq + sbc
    ∧ (cs ≤ a → 0 ≤ a - cs + lq + sbc)
    ∧ (0 ≤ cs → cs ≤ a → ae ≤ ce → ce < (ctx.length : Int) →
        ae - cs + lq + sbc < lq + ((pySlice ctx cs (ce + 1)).length : Int) + ns) := by
  refine ⟨shift_answer_pos lq sbc mal cs ce a ae hincl, by omega, by omega, ?_⟩
  intro hcs ha hae hce
  have hslice : ((pySlice ctx cs (ce + 1)).length : Int) = ce + 1 - cs := by
    rw [pySlice_length]
    have e1 : (pyIndex ctx.length (ce + 1) : Int) = min (ce + 1) ctx.length :=
      pyIndex_nonneg_eq _ _ (by omega)
    have e2 : (pyIndex ctx.length cs : Int) = min cs ctx.length :=
      pyIndex_nonneg_eq _ _ hcs
    omega
  omega

/-- Witness for the amended C5 at the spec's concrete scenario 6:
window (0, 5), answer (2, 3) inside a context of length 6,
len_question 3, seps_before_context 1, n_seps 1, min_answer_length 1;
all graded clauses apply and are discharged at this input. -/
theorem remapped_span_bounds_witness :
    shift_answer 3 1 1 ((0 : Int), (5 : Int)) ((2 : Int), (3 : Int)) = (6, 7)
    ∧ (6 : Int) ≤ 7
    ∧ (0 : Int) ≤ 6
    ∧ (7 : Int) < 3 + ((pySlice [(7 : Int), 8, 9, 10, 11, 12] 0 (5 + 1)).length : Int) + 1 := by
  have h := remapped_span_bounds 3 1 1 1 0 5 2 3 [7, 8, 9, 10, 11, 12]
    (by decide) (by decide) (by decide) (by decide) (by decide)
  exact ⟨h.1, h.2.1, h.2.2.1 (by decide),
    h.2.2.2 (by decide) (by decide) (by decide) (by decide)⟩

/-- C7 counterexample: with len_question = 0 and no separator before the
context slot, the produced row (6, 13, -2, 0) has a non-sentinel
remapped answer, yet the predicate the code hands to the balancer
(answer_end > 0) classifies it as unanswerable: the code's predicate is
not "RemappedAnswer is not (0, 0)". -/
theorem balancer_predicate_mismatch :
    generate_subsample_span 0 10 8 2 1 0 0 (4, 6) =
      .ok [⟨0, 7, 4, 6⟩, ⟨6, 13, -2, 0⟩]
    ∧ balancer_predicate ⟨6, 13, -2, 0⟩ = false
    ∧ is_answerable_spec ⟨6, 13, -2, 0⟩ = true :=
  ⟨rfl, by decide, by decide⟩

/-- C7 (amended): the table builder hands the balancer the partition
predicate answer_end > 0, and the balancer's output replaces the flat
table; on every row generated from a well-formed annotation
(ans_start ≤ ans_end) with min_answer_length ≥ 1 and
len_question + seps_before_context ≥ 1, that predicate coincides with
the spec's predicate "RemappedAnswer is not the sentinel (0, 0)". -/
theorem balancer_predicate_agrees (lq lc ml st mal sbc ns a ae : Int)
    (rows : List SpanRow) (r : SpanRow)
    (hpos : 1 ≤ lq + sbc) (hmal : 1 ≤ mal) (hwf : a ≤ ae)
    (hgen : generate_subsample_span lq lc ml st mal sbc ns (a, ae) = .ok rows)
    (hr : r ∈ rows) :
    balancer_predicate r = is_answerable_spec r := by
  obtain ⟨w, hreq⟩ :=
    mem_generate_subsample_span lq lc ml st mal sbc ns a ae rows r hgen hr
  obtain ⟨cs, ce⟩ := w
  subst hreq
  dsimp only
  by_cases hc : min (ae - a + 1) mal ≤ calculate_overlap cs ce a (ae + 1)
  · have hc2 : min (ae - a + 1) mal ≤ inclusiveOverlap cs ce a ae := by
      rw [← calculate_overlap_eq_inclusive]; exact hc
    rw [shift_answer_pos lq sbc mal cs ce a ae hc2]
    have hcs : cs ≤ ae := by
      unfold calculate_overlap at hc
      omega
    simp only [balancer_predicate, is_answerable_spec, decide_eq_decide,
      ne_eq, Prod.mk.injEq]
    omega
  · have hc2 : inclusiveOverlap cs ce a ae < min (ae - a + 1) mal := by
      rw [← calculate_overlap_eq_inclusive]; omega
    rw [shift_answer_neg lq sbc mal cs ce a ae hc2]
    simp [balancer_predicate, is_answerable_spec]

/-- Witness for the amended C7: the two rows generated at the spec's
scenario configuration; on the answerable row both predicates agree. -/
theorem balancer_predicate_agrees_witness :
    balancer_predicate ⟨0, 5, 6, 7⟩ = is_answerable_spec ⟨0, 5, 6, 7⟩ :=
  balancer_predicate_agrees 3 6 10 1 1 1 1 2 3
    [⟨0, 5, 6, 7⟩, ⟨5, 10, 0, 0⟩] ⟨0, 5, 6, 7⟩
    (by decide) (by decide) (by decide) rfl (by decide)

/-- C8 counterexample: the malformed annotation (3, 2) with
answer_end < answer_start raises nothing: the builder returns a full
table and even marks the answer as included in both windows. -/
theorem no_integrity_validation :
    ((2 : Int) < 3)
    ∧ generate_subsample_span 3 6 10 1 1 1 1 (3, 2) =
        .ok [⟨0, 5, 7, 6⟩, ⟨5, 10, 2, 1⟩] :=
  ⟨by decide, rfl⟩

/-- C8 (amended): no integrity validation is performed and no
DataIntegrityError exists; an annotation with answer_end < answer_start
flows through: its inclusion threshold min(answer length,
min_answer_length) is non-positive, so every generated row carries the
translated (degenerate) answer rather than an error or the sentinel. -/
theorem degenerate_answer_included (lq lc ml st mal sbc ns a ae : Int)
    (rows : List SpanRow) (r : SpanRow)
    (hdeg : ae < a)
    (hgen : generate_subsample_span lq lc ml st mal sbc ns (a, ae) = .ok rows)
    (hr : r ∈ rows) :
    r.answer_start = a - r.subcontext_start + lq + sbc
    ∧ r.answer_end = ae - r.subcontext_start + lq + sbc := by
  obtain ⟨w, hreq⟩ :=
    mem_generate_subsample_span lq lc ml st mal sbc ns a ae rows r hgen hr
  subst hreq
  have hsh : shift_answer lq sbc mal w (a, ae) =
      (a - w.1 + lq + sbc, ae - w.1 + lq + sbc) := by
    cases w with
    | mk cs ce =>
      refine shift_answer_pos lq sbc mal cs ce a ae ?_
      unfold inclusiveOverlap
      omega
  rw [hsh]
  exact ⟨rfl, rfl⟩

/-- Witness for the amended C8: the degenerate annotation (3, 2) at the
scenario configuration; the first generated row carries the translated
degenerate answer (7, 6). -/
theorem degenerate_answer_included_witness :
    ((⟨0, 5, 7, 6⟩ : SpanRow).answer_start =
        3 - (⟨0, 5, 7, 6⟩ : SpanRow).subcontext_start + 3 + 1)
    ∧ ((⟨0, 5, 7, 6⟩ : SpanRow).answer_end =
        2 - (⟨0, 5, 7, 6⟩ : SpanRow).subcontext_start + 3 + 1) :=
  degenerate_answer_included 3 6 10 1 1 1 1 3 2
    [⟨0, 5, 7, 6⟩, ⟨5, 10, 2, 1⟩] ⟨0, 5, 7, 6⟩
    (by decide) rfl (by decide)

/-- C6: for a window really produced by the generator and a separator
template with exactly two content slots, the assembled sequence before
padding has length len_question + (context-window slice length) +
n_seps, for input_ids and attention_mask alike; after right padding both
have length exactly max_length. -/
theorem assembled_lengths (seps : List Int) (q c : QCBlock) (ml st pid cs ce : Int)
    (spans : List (Int × Int))
    (hqm : q.attention_mask.length = q.input_ids.length)
    (hcm : c.attention_mask.length = c.input_ids.length)
    (hslots : seps.countP (fun s => s < 0) = 2)
    (hst : 0 ≤ st)
    (hlt : st < ml - (q.input_ids.length : Int) - (n_seps seps : Int))
    (hgen : generate_window_spans (q.input_ids.length : Int) (c.input_ids.length : Int)
        ml st (n_seps seps : Int) = .ok spans)
    (hw : (cs, ce) ∈ spans) :
    (combine_qc seps q (slice_block c cs ce)).toOption.map block_id_len =
      some (q.input_ids.length + (pySlice c.input_ids cs (ce + 1)).length + n_seps seps)
    ∧ (combine_qc seps q (slice_block c cs ce)).toOption.map block_mask_len =
      some (q.input_ids.length + (pySlice c.input_ids cs (ce + 1)).length + n_seps seps)
    ∧ (combine_qc seps q (slice_block c cs ce)).toOption.map (padded_id_len ml pid) =
      some ml.toNat
    ∧ (combine_qc seps q (slice_block c cs ce)).toOption.map (padded_mask_len ml pid) =
      some ml.toNat
    ∧ ((ml.toNat : Int) = ml) := by
  obtain ⟨hcs, hce⟩ := window_mem_shape (q.input_ids.length : Int)
    (c.input_ids.length : Int) ml st (n_seps seps : Int) spans cs ce hst hlt hgen hw
  obtain ⟨r, hr, h1, h2⟩ := combine_qc_ok_two seps q (slice_block c cs ce) hslots
  have hmask_slice : (pySlice c.attention_mask cs (ce + 1)).length
      = (pySlice c.input_ids cs (ce + 1)).length := by
    rw [pySlice_length, pySlice_length, hcm]
  have hr1 : r.input_ids.length = q.input_ids.length
      + (pySlice c.input_ids cs (ce + 1)).length + n_seps seps := by
    simpa [slice_block] using h1
  have hr2 : r.attention_mask.length = q.input_ids.length
      + (pySlice c.input_ids cs (ce + 1)).length + n_seps seps := by
    have h2' := h2
    simp [slice_block] at h2'
    rw [h2', hqm, hmask_slice]
  have hsl_int : ((pySlice c.input_ids cs (ce + 1)).length : Int)
      ≤ ml - (q.input_ids.length : Int) - (n_seps seps : Int) := by
    rw [pySlice_length]
    have l1 := pyIndex_le c.input_ids.length (ce + 1)
    have l2 := pyIndex_le c.input_ids.length cs
    have e1 : (pyIndex c.input_ids.length (ce + 1) : Int)
        = min (ce + 1) c.input_ids.length := pyIndex_nonneg_eq _ _ (by omega)
    have e2 : (pyIndex c.input_ids.length cs : Int)
        = min cs c.input_ids.length := pyIndex_nonneg_eq _ _ hcs
    omega
  have hlen1 : (r.input_ids.length : Int) ≤ ml := by omega
  have hlen2 : (r.attention_mask.length : Int) ≤ ml := by omega
  refine ⟨?_, ?_, ?_, ?_, by omega⟩
  · rw [hr]
    simp [Except.toOption, block_id_len, hr1]
  · rw [hr]
    simp [Except.toOption, block_mask_len, hr2]
  · rw [hr]
    simp [Except.toOption, padded_id_len, pad_to]
    omega
  · rw [hr]
    simp [Except.toOption, padded_mask_len, pad_to]
    omega

/-- Witness for C6 at a concrete sample: question of length 3, context
of length 6, template with two slots and one literal, max_length 10,
stride 1, second window (5, 10) whose slice is the short tail of length
1; the assembled length is 3 + 1 + 1 = 5 and the padded length is 10. -/
theorem assembled_lengths_witness :
    (combine_qc [-1, 5, -1] ⟨[1, 2, 3], [1, 1, 1]⟩
        (slice_block ⟨[7, 8, 9, 10, 11, 12], [1, 1, 1, 1, 1, 1]⟩ 5 10)).toOption.map
        block_id_len = some 5
    ∧ (combine_qc [-1, 5, -1] ⟨[1, 2, 3], [1, 1, 1]⟩
        (slice_block ⟨[7, 8, 9, 10, 11, 12], [1, 1, 1, 1, 1, 1]⟩ 5 10)).toOption.map
        block_mask_len = some 5
    ∧ (combine_qc [-1, 5, -1] ⟨[1, 2, 3], [1, 1, 1]⟩
        (slice_block ⟨[7, 8, 9, 10, 11, 12], [1, 1, 1, 1, 1, 1]⟩ 5 10)).toOption.map
        (padded_id_len 10 0) = some 10
    ∧ (combine_qc [-1, 5, -1] ⟨[1, 2, 3], [1, 1, 1]⟩
        (slice_block ⟨[7, 8, 9, 10, 11, 12], [1, 1, 1, 1, 1, 1]⟩ 5 10)).toOption.map
        (padded_mask_len 10 0) = some 10
    ∧ (((10 : Int).toNat : Int) = 10) :=
  assembled_lengths [-1, 5, -1] ⟨[1, 2, 3], [1, 1, 1]⟩
    ⟨[7, 8, 9, 10, 11, 12], [1, 1, 1, 1, 1, 1]⟩ 10 1 0 5 10 [(0, 5), (5, 10)]
    rfl rfl (by decide) (by decide) (by decide) rfl (by decide)

/-- C9: for any row, memory-resident mode and lazy mode return the same
assembled sample, provided the in-memory maps agree with the store on
the row's question and context identifiers. -/
theorem memory_lazy_agree (mem disk : InstanceType → String → QCBlock)
    (seps : List Int) (pid ml : Int) (row : TableRow)
    (hq : mem .question row.question_id = disk .question row.question_id)
    (hc : mem .context row.context_id = disk .context row.context_id) :
    dataset_get (some mem) disk seps pid ml row =
      dataset_get none disk seps pid ml row := by
  simp [dataset_get, get_instance, hq, hc]

/-- Witness for C9 at a concrete store and row. -/
theorem memory_lazy_agree_witness :
    dataset_get (some const_store) const_store [-1, 5, -1] 0 10
        ⟨"q1", "c1", 5, 10, 6, 7⟩ =
      dataset_get none const_store [-1, 5, -1] 0 10 ⟨"q1", "c1", 5, 10, 6, 7⟩ :=
  memory_lazy_agree const_store const_store [-1, 5, -1] 0 10
    ⟨"q1", "c1", 5, 10, 6, 7⟩ rfl rfl

/-- C10: the assembler treats every separator entry by sign alone:
combine_qc coincides with the tagged assembler where each negative entry
(not only -1) is read as a content slot consuming the next pending block
(question first, then the context window) and each non-negative entry is
emitted as a literal token with attention mask 1. -/
theorem combine_qc_refines_tagged (seps : List Int) (q c : QCBlock) :
    combine_qc seps q c = assemble_go (seps.map tag_entry) [q, c] ⟨[], []⟩ :=
  combine_go_eq_assemble seps [q, c] ⟨[], []⟩

end ContractExtraction
